import Mathlib

/-!
Verification of the checkpoint-ingestion / epoch-materialization pipeline and
the `move-cli` environment lookup, as a shallow embedding in Lean 4.

Sources embedded:
- `external-crates/move/crates/move-cli/src/base/mod.rs` (`find_env`);
- `crates/sui-indexer-alt/src/mock.rs` (mock system-state constructors);
- `crates/sui-indexer-alt-e2e-tests/tests/graphql_epoch_tests.rs` (the
  observable behaviour of the ingestion + query stack at epoch boundaries).

The pipeline internals (writers, watermark coordinator, accumulator) are not
part of the source snapshot; where a definition models those missing parts its
doc comment starts with `Modelled from the spec:`.
-/

set_option maxRecDepth 4000

/-! ## `find_env` from move-cli (`base/mod.rs`)

The environments map returned by `RootPackage::environments` is a
`BTreeMap<String, String>`; we embed it as an association list in ascending
key order, so `first_key_value` is `head?`. A panic through `.expect(...)` is
embedded as the `panic` outcome of `FindEnvResult`. -/

structure BuildConfig where
  environment : Option String
deriving Repr, DecidableEq

structure Environment where
  name : String
  id : String
deriving Repr, DecidableEq

def Environment.new (name id : String) : Environment := ⟨name, id⟩

/-- Outcome of `find_env`: `Ok(env)`, or a panic from
`.expect("At least one default env")`. (The `RootPackage::environments(path)?`
error path is outside the embedded function; `envs` is taken as input.) -/
inductive FindEnvResult where
  | ok (env : Environment)
  | panicked
deriving Repr, DecidableEq

/-- `BTreeMap::get`, on the ascending association-list embedding. -/
def envsGet (envs : List (String × String)) (e : String) : Option String :=
  (envs.find? (fun p => p.1 == e)).map (·.2)

/-- `BTreeMap::first_key_value` on the ascending association-list embedding:
the entry with the least key is the head. -/
def firstKeyValue (envs : List (String × String)) : Option (String × String) :=
  envs.head?

/-- `find_env` from `move-cli/src/base/mod.rs`: if the config names an
environment present in the map, use it; otherwise (unknown name or no name)
take the first entry, panicking when the map is empty. -/
def find_env (envs : List (String × String)) (config : BuildConfig) : FindEnvResult :=
  match config.environment with
  | some e =>
    match envsGet envs e with
    | some id => .ok (Environment.new e id)
    | none =>
      match firstKeyValue envs with
      | some (name, id) => .ok (Environment.new name id)
      | none => .panicked
  | none =>
    match firstKeyValue envs with
    | some (name, id) => .ok (Environment.new name id)
    | none => .panicked

/-! ## Base58 encoding of digests

`sui_types::digests::Digest` renders as Base58 (Bitcoin alphabet) in the
query layer's output. We embed the encoding of a byte string: interpret the
bytes big-endian, extract base-58 digits, and prefix one `'1'` per leading
zero byte. -/

def base58Alphabet : List Char :=
  "123456789ABCDEFGHJKLMNPQRSTUVWXYZabcdefghijkmnopqrstuvwxyz".toList

def bytesToNat (bs : List Nat) : Nat :=
  bs.foldl (fun a b => a * 256 + b) 0

/-- Base-58 digits of `n`, most significant first; `fuel` bounds recursion and
is chosen larger than the number of digits ever needed. -/
def base58DigitsAux : Nat → Nat → List Nat
  | 0, _ => []
  | _ + 1, 0 => []
  | fuel + 1, n => base58DigitsAux fuel (n / 58) ++ [n % 58]

def countLeadingZeros : List Nat → Nat
  | [] => 0
  | b :: bs => if b = 0 then countLeadingZeros bs + 1 else 0

def base58Encode (bs : List Nat) : String :=
  let n := bytesToNat bs
  let digits := base58DigitsAux 600 n
  String.mk (List.replicate (countLeadingZeros bs) '1'
    ++ digits.map (fun d => base58Alphabet.getD d '?'))

example : base58Encode (List.replicate 32 1) =
    "4vJ9JU1bJJE96FWSJKvHsmmFADCg4gpZQff4P3bkLKi" := by decide

/-! ## System-state model (`sui-indexer-alt/src/mock.rs` and `sui_types`)

The field layout follows the constructors in `mock.rs`; field types from
`sui_types` that the snapshot does not include (validator summaries, tables,
bags) are embedded opaquely as lists of entries. -/

structure Balance where
  value : Nat
deriving Repr, DecidableEq

def Balance.new (v : Nat) : Balance := ⟨v⟩

structure VecMap (K V : Type) where
  contents : List (K × V)
deriving Repr, DecidableEq

structure ValidatorSetV1 where
  total_stake : Nat
  active_validators : List Nat
  pending_active_validators : List Nat
  pending_removals : List Nat
  staking_pool_mappings : List (Nat × Nat)
  inactive_validators : List (Nat × Nat)
  validator_candidates : List (Nat × Nat)
  at_risk_validators : VecMap Nat Nat
  extra_fields : List (Nat × Nat)
deriving Repr, DecidableEq

structure StorageFundV1 where
  total_object_storage_rebates : Balance
  non_refundable_balance : Balance
deriving Repr, DecidableEq

structure SystemParametersV1 where
  epoch_duration_ms : Nat
  stake_subsidy_start_epoch : Nat
  max_validator_count : Nat
  min_validator_joining_stake : Nat
  validator_low_stake_threshold : Nat
  validator_very_low_stake_threshold : Nat
  validator_low_stake_grace_period : Nat
  extra_fields : List (Nat × Nat)
deriving Repr, DecidableEq

structure StakeSubsidyV1 where
  balance : Balance
  distribution_counter : Nat
  current_distribution_amount : Nat
  stake_subsidy_period_length : Nat
  stake_subsidy_decrease_rate : Nat
  extra_fields : List (Nat × Nat)
deriving Repr, DecidableEq

structure SuiSystemStateInnerV1 where
  epoch : Nat
  protocol_version : Nat
  system_state_version : Nat
  validators : ValidatorSetV1
  storage_fund : StorageFundV1
  parameters : SystemParametersV1
  reference_gas_price : Nat
  validator_report_records : VecMap Nat (List Nat)
  stake_subsidy : StakeSubsidyV1
  safe_mode : Bool
  safe_mode_storage_rewards : Balance
  safe_mode_computation_rewards : Balance
  safe_mode_storage_rebates : Nat
  safe_mode_non_refundable_storage_fee : Nat
  epoch_start_timestamp_ms : Nat
  extra_fields : List (Nat × Nat)
deriving Repr, DecidableEq

/-- Modelled from the spec: `SuiSystemStateInnerV2` is not in the source
snapshot (the tests construct it via `mock::sui_system_state_inner_v2`); per
the spec each variant of the tagged union carries epoch number, protocol
version, validator set, storage fund, stake subsidy, reference gas price,
`safe_mode`, and the four safe-mode reward/fee fields, with the same names the
V2 test overrides use. -/
structure SuiSystemStateInnerV2 where
  epoch : Nat
  protocol_version : Nat
  system_state_version : Nat
  validators : ValidatorSetV1
  storage_fund : StorageFundV1
  parameters : SystemParametersV1
  reference_gas_price : Nat
  validator_report_records : VecMap Nat (List Nat)
  stake_subsidy : StakeSubsidyV1
  safe_mode : Bool
  safe_mode_storage_rewards : Balance
  safe_mode_computation_rewards : Balance
  safe_mode_storage_rebates : Nat
  safe_mode_non_refundable_storage_fee : Nat
  epoch_start_timestamp_ms : Nat
  extra_fields : List (Nat × Nat)
deriving Repr, DecidableEq

/-- The tagged union `sui_types::sui_system_state::SuiSystemState`. -/
inductive SuiSystemState where
  | V1 (inner : SuiSystemStateInnerV1)
  | V2 (inner : SuiSystemStateInnerV2)
deriving Repr, DecidableEq

structure StoredGenesis where
  genesis_digest : List Nat
  initial_protocol_version : Nat
deriving Repr, DecidableEq

/-! ### Mock constructors (`mock.rs`) -/

def stored_genesis : StoredGenesis :=
  { genesis_digest := List.replicate 32 1
    initial_protocol_version := 0 }

def validator_set_v1 : ValidatorSetV1 :=
  { total_stake := 0
    active_validators := []
    pending_active_validators := []
    pending_removals := []
    staking_pool_mappings := []
    inactive_validators := []
    validator_candidates := []
    at_risk_validators := { contents := [] }
    extra_fields := [] }

def storage_fund_v1 : StorageFundV1 :=
  { total_object_storage_rebates := Balance.new 0
    non_refundable_balance := Balance.new 0 }

def system_parameters_v1 : SystemParametersV1 :=
  { epoch_duration_ms := 0
    stake_subsidy_start_epoch := 0
    max_validator_count := 0
    min_validator_joining_stake := 0
    validator_low_stake_threshold := 0
    validator_very_low_stake_threshold := 0
    validator_low_stake_grace_period := 0
    extra_fields := [] }

def stake_subsidy_v1 : StakeSubsidyV1 :=
  { balance := Balance.new 0
    distribution_counter := 0
    current_distribution_amount := 0
    stake_subsidy_period_length := 0
    stake_subsidy_decrease_rate := 0
    extra_fields := [] }

def sui_system_state_inner_v1 : SuiSystemStateInnerV1 :=
  { epoch := 0
    protocol_version := 0
    system_state_version := 1
    validators := validator_set_v1
    storage_fund := storage_fund_v1
    parameters := system_parameters_v1
    reference_gas_price := 0
    validator_report_records := { contents := [] }
    stake_subsidy := stake_subsidy_v1
    safe_mode := false
    safe_mode_storage_rewards := Balance.new 0
    safe_mode_computation_rewards := Balance.new 0
    safe_mode_storage_rebates := 0
    safe_mode_non_refundable_storage_fee := 0
    epoch_start_timestamp_ms := 0
    extra_fields := [] }

/-- Modelled from the spec: `mock::sui_system_state_inner_v2` is not in the
source snapshot; it mirrors the V1 mock (all-zero / empty defaults,
`system_state_version` matching the variant) in the V2 layout. -/
def sui_system_state_inner_v2 : SuiSystemStateInnerV2 :=
  { epoch := 0
    protocol_version := 0
    system_state_version := 2
    validators := validator_set_v1
    storage_fund := storage_fund_v1
    parameters := system_parameters_v1
    reference_gas_price := 0
    validator_report_records := { contents := [] }
    stake_subsidy := stake_subsidy_v1
    safe_mode := false
    safe_mode_storage_rewards := Balance.new 0
    safe_mode_computation_rewards := Balance.new 0
    safe_mode_storage_rebates := 0
    safe_mode_non_refundable_storage_fee := 0
    epoch_start_timestamp_ms := 0
    extra_fields := [] }

/-! ## Checkpoints and the epoch-materialization pipeline

The ingestion pipeline, epoch-advance transition and query layer are not in
the source snapshot; they are modelled from the spec (sections 4.2, 4.4, 6),
with the commitment-reporting path pinned down by the observable assertions of
`graphql_epoch_tests.rs`. -/

structure ObjectMutation where
  object_id : Nat
  version : Nat
  added : Bool
deriving Repr, DecidableEq

/-- Modelled from the spec: a `Checkpoint` carries a sequence number, epoch,
object mutations, and an optional list of epoch-end commitments (digests);
`is_epoch_end` marks the epoch-advance trigger (the tests build such a
checkpoint via `TestCheckpointDataBuilder::advance_epoch`). -/
structure Checkpoint where
  sequence_number : Nat
  epoch : Nat
  mutations : List ObjectMutation
  epoch_commitments : List (List Nat)
  is_epoch_end : Bool
deriving Repr, DecidableEq

/-- Modelled from the spec: the commitment accumulator's per-mutation
contribution to the multiset-homomorphic hash; adds contribute positively and
removals negatively, so removal cancels a prior add. -/
def mutationDelta (m : ObjectMutation) : Int :=
  let h : Int := m.object_id * 18446744073709551616 + m.version + 1
  if m.added then h else -h

/-- Modelled from the spec: `update(mutations)` of the Commitment Accumulator
folds every mutation's contribution into the accumulated value; the group
operation is commutative, making the result independent of intra-checkpoint
mutation order. -/
def updateAcc (acc : Int) (muts : List ObjectMutation) : Int :=
  acc + (muts.map mutationDelta).sum

/-- Modelled from the spec: the digest after ingesting a history of
checkpoints, each given by its mutation list, applied in sequence order. -/
def runDigest (init : Int) (history : List (List ObjectMutation)) : Int :=
  history.foldl updateAcc init

/-- A per-epoch materialized snapshot: the epoch's system state, the
epoch-end commitments attached when the epoch closes, and the closed flag. -/
structure EpochSnapshot where
  system_state : SuiSystemState
  commitments : List (List Nat)
  closed : Bool
deriving Repr, DecidableEq

/-- Modelled from the spec: the durable state of the epoch pipelines — one
snapshot per epoch number, plus the currently open epoch and the genesis
record. -/
structure PipelineState where
  genesis : StoredGenesis
  snapshots : Nat → Option EpochSnapshot
  current_epoch : Nat

/-- Modelled from the spec: at the start of the next epoch the safe-mode
fields reset to zero defaults (section 4.4 step 1). -/
def resetSafeModeV1 (s : SuiSystemStateInnerV1) : SuiSystemStateInnerV1 :=
  { s with
    epoch := s.epoch + 1
    safe_mode := false
    safe_mode_storage_rewards := Balance.new 0
    safe_mode_computation_rewards := Balance.new 0
    safe_mode_storage_rebates := 0
    safe_mode_non_refundable_storage_fee := 0 }

/-- Modelled from the spec: V2 counterpart of `resetSafeModeV1`. -/
def resetSafeModeV2 (s : SuiSystemStateInnerV2) : SuiSystemStateInnerV2 :=
  { s with
    epoch := s.epoch + 1
    safe_mode := false
    safe_mode_storage_rewards := Balance.new 0
    safe_mode_computation_rewards := Balance.new 0
    safe_mode_storage_rebates := 0
    safe_mode_non_refundable_storage_fee := 0 }

/-- Modelled from the spec: construct the new epoch's `SystemState` at the
epoch-advance transition (section 4.4 step 3). -/
def nextSystemState : SuiSystemState → SuiSystemState
  | .V1 s => .V1 (resetSafeModeV1 s)
  | .V2 s => .V2 (resetSafeModeV2 s)

/-- Modelled from the spec: `bootstrap` seeds the genesis record and the
epoch-0 `SystemState` snapshot before any checkpoint is processed
(section 4.2); epoch 0 starts open with no commitments attached. -/
def bootstrap (g : StoredGenesis) (s : SuiSystemState) : PipelineState :=
  { genesis := g
    snapshots := fun e => if e = 0 then some ⟨s, [], false⟩ else none
    current_epoch := 0 }

/-- Modelled from the spec: processing one checkpoint (section 4.4). A
checkpoint carrying the epoch-end marker closes the current epoch — attaching
the checkpoint's epoch commitments to the closing snapshot and marking it
closed — and opens the next epoch with the constructed new system state.
Other checkpoints leave the epoch pipelines' snapshots unchanged. -/
def processCheckpoint (st : PipelineState) (c : Checkpoint) : PipelineState :=
  if c.is_epoch_end then
    let n := st.current_epoch
    { st with
      snapshots := fun e =>
        if e = n then
          (st.snapshots n).map (fun snap =>
            { snap with commitments := c.epoch_commitments, closed := true })
        else if e = n + 1 then
          (st.snapshots n).map (fun snap => ⟨nextSystemState snap.system_state, [], false⟩)
        else st.snapshots e
      current_epoch := n + 1 }
  else st

/-- Ingest a list of checkpoints in sequence order. -/
def processCheckpoints (st : PipelineState) (cs : List Checkpoint) : PipelineState :=
  cs.foldl processCheckpoint st

/-- States reachable from a bootstrap by ingesting checkpoints. -/
inductive Reachable : PipelineState → Prop
  | boot (g : StoredGenesis) (s : SuiSystemState) : Reachable (bootstrap g s)
  | step {st : PipelineState} (c : Checkpoint) : Reachable st → Reachable (processCheckpoint st c)

/-! ### Query layer (interface boundary, section 6) -/

/-- The shape of the `safeMode` GraphQL result in `graphql_epoch_tests.rs`. -/
structure SafeModeData where
  enabled : Bool
  computationCost : Nat
  storageCost : Nat
  storageRebate : Nat
  nonRefundableStorageFee : Nat
deriving Repr, DecidableEq

/-- Reading the safe-mode fields transparently through the tagged union, with
the field mapping the tests assert (`computationCost` from
`safe_mode_computation_rewards`, `storageCost` from
`safe_mode_storage_rewards`, and so on). -/
def safeModeOf : SuiSystemState → SafeModeData
  | .V1 s =>
    ⟨s.safe_mode, s.safe_mode_computation_rewards.value, s.safe_mode_storage_rewards.value,
      s.safe_mode_storage_rebates, s.safe_mode_non_refundable_storage_fee⟩
  | .V2 s =>
    ⟨s.safe_mode, s.safe_mode_computation_rewards.value, s.safe_mode_storage_rewards.value,
      s.safe_mode_storage_rebates, s.safe_mode_non_refundable_storage_fee⟩

/-- Modelled from the spec: the query layer's `epoch(epochId).safeMode` read —
the safe-mode data of the stored snapshot for that epoch. -/
def queryEpochSafeMode (st : PipelineState) (e : Nat) : Option SafeModeData :=
  (st.snapshots e).map (fun snap => safeModeOf snap.system_state)

/-- Modelled from the spec and pinned by `live_object_set_digest` in
`graphql_epoch_tests.rs`: `epoch(epochId).liveObjectSetDigest` renders the
first ECMH commitment stored with the epoch's closing snapshot in Base58. -/
def queryLiveObjectSetDigest (st : PipelineState) (e : Nat) : Option String :=
  (st.snapshots e).bind (fun snap => snap.commitments.head?.map base58Encode)

/-! ### Watermark coordinator (section 4.6) -/

inductive TimeoutError where
  | timeout
deriving Repr, DecidableEq

/-- Every named pipeline's watermark has reached `seq`. -/
def allReached (wm : String → Nat) (pipelines : List String) (seq : Nat) : Bool :=
  pipelines.all (fun p => decide (seq ≤ wm p))

/-- Modelled from the spec: `wait_until(pipelines, seq, timeout)` over a
discrete-time trace of per-pipeline watermarks — suspends until every named
pipeline's watermark is at least `seq`, returning `Ok` if that happens at some
time within the timeout and `TimeoutError` otherwise. -/
def wait_until (trace : Nat → String → Nat) (pipelines : List String)
    (seq timeout : Nat) : Except TimeoutError Unit :=
  if (List.range (timeout + 1)).any (fun t => allReached (trace t) pipelines seq) then
    .ok ()
  else
    .error .timeout

/-! ## Helper lemmas -/

theorem processCheckpoint_epoch_end {st : PipelineState} {c : Checkpoint}
    (hc : c.is_epoch_end = true) :
    processCheckpoint st c =
      { st with
        snapshots := fun e =>
          if e = st.current_epoch then
            (st.snapshots st.current_epoch).map (fun snap =>
              { snap with commitments := c.epoch_commitments, closed := true })
          else if e = st.current_epoch + 1 then
            (st.snapshots st.current_epoch).map (fun snap =>
              ⟨nextSystemState snap.system_state, [], false⟩)
          else st.snapshots e
        current_epoch := st.current_epoch + 1 } := by
  unfold processCheckpoint
  rw [if_pos hc]

theorem processCheckpoint_not_epoch_end {st : PipelineState} {c : Checkpoint}
    (hc : c.is_epoch_end = false) :
    processCheckpoint st c = st := by
  unfold processCheckpoint
  rw [if_neg (by simp [hc])]

/-! ## Claim theorems: `find_env` -/

/-- C9: when the environments map is non-empty and the build config names an
environment that is not a key of the map, `find_env` returns `Ok` with the
first environment of the map, identically to calling it with no environment
configured. -/
theorem C9_find_env_unknown_name_falls_back (envs : List (String × String)) (e : String)
    (hne : envs ≠ []) (hnk : envsGet envs e = none) :
    (∃ p, firstKeyValue envs = some p ∧
        find_env envs ⟨some e⟩ = FindEnvResult.ok (Environment.new p.1 p.2)) ∧
    find_env envs ⟨some e⟩ = find_env envs ⟨none⟩ := by
  obtain ⟨a, as, rfl⟩ := List.exists_cons_of_ne_nil hne
  refine ⟨⟨a, rfl, ?_⟩, ?_⟩ <;>
    simp [find_env, hnk, firstKeyValue]

/-- Witness for C9 at a concrete map and unknown name. -/
theorem C9_witness :
    (∃ p, firstKeyValue [("mainnet", "35834a8a")] = some p ∧
        find_env [("mainnet", "35834a8a")] ⟨some "devnet"⟩ =
          FindEnvResult.ok (Environment.new p.1 p.2)) ∧
    find_env [("mainnet", "35834a8a")] ⟨some "devnet"⟩ =
      find_env [("mainnet", "35834a8a")] ⟨none⟩ :=
  C9_find_env_unknown_name_falls_back [("mainnet", "35834a8a")] "devnet"
    (by decide) (by decide)

/-- C10: on an empty environments map `find_env` panics (the `.expect` on
`first_key_value`) for every configuration, and never panics when at least one
environment exists: it is total exactly under that precondition. -/
theorem C10_find_env_empty_panics (config : BuildConfig) :
    find_env [] config = FindEnvResult.panicked ∧
    ∀ envs : List (String × String), envs ≠ [] →
      find_env envs config ≠ FindEnvResult.panicked := by
  constructor
  · cases h : config.environment <;>
      simp [find_env, h, envsGet, firstKeyValue]
  · intro envs hne
    obtain ⟨a, as, rfl⟩ := List.exists_cons_of_ne_nil hne
    cases h : config.environment with
    | none => simp [find_env, h, firstKeyValue]
    | some e =>
      cases hg : envsGet (a :: as) e <;>
        simp [find_env, h, hg, firstKeyValue]

/-- Witness for C10 at a concrete configuration and non-empty map. -/
theorem C10_witness :
    find_env [] ⟨some "devnet"⟩ = FindEnvResult.panicked ∧
    find_env [("mainnet", "35834a8a")] ⟨some "devnet"⟩ ≠ FindEnvResult.panicked :=
  ⟨(C10_find_env_empty_panics ⟨some "devnet"⟩).1,
    (C10_find_env_empty_panics ⟨some "devnet"⟩).2 [("mainnet", "35834a8a")] (by decide)⟩

/-! ## Claim theorems: safe-mode scenarios -/

/-- The epoch-advance checkpoint the safe-mode tests ingest (no object
mutations, no epoch commitments attached). -/
def advanceEpochCheckpoint : Checkpoint :=
  { sequence_number := 0
    epoch := 0
    mutations := []
    epoch_commitments := []
    is_epoch_end := true }

/-- C7: bootstrapping with the safe-mode-disabled V1 state and advancing one
epoch with no safe-mode activity leaves epoch 0 queried with
`safe_mode = false` and all four reward/fee fields `0`. -/
theorem C7_safe_mode_disabled_zero (g : StoredGenesis) (c : Checkpoint)
    (hc : c.is_epoch_end = true) :
    queryEpochSafeMode
        (processCheckpoint (bootstrap g (SuiSystemState.V1 sui_system_state_inner_v1)) c) 0 =
      some ⟨false, 0, 0, 0, 0⟩ := by
  rw [processCheckpoint_epoch_end hc]
  simp [bootstrap, queryEpochSafeMode, safeModeOf, sui_system_state_inner_v1, Balance.new]

/-- Witness for C7 at the concrete mock scenario. -/
theorem C7_witness :
    queryEpochSafeMode
        (processCheckpoint
          (bootstrap stored_genesis (SuiSystemState.V1 sui_system_state_inner_v1))
          advanceEpochCheckpoint) 0 =
      some ⟨false, 0, 0, 0, 0⟩ :=
  C7_safe_mode_disabled_zero stored_genesis advanceEpochCheckpoint rfl

/-- The V1 bootstrap state of `safe_mode_system_state_v1` (the mock with the
test's safe-mode overrides). -/
def safe_mode_state_v1 : SuiSystemState :=
  SuiSystemState.V1
    { sui_system_state_inner_v1 with
      safe_mode := true
      safe_mode_computation_rewards := Balance.new 100
      safe_mode_storage_rewards := Balance.new 200
      safe_mode_storage_rebates := 300
      safe_mode_non_refundable_storage_fee := 400 }

/-- C2: bootstrapping the V1 state with `safe_mode = true` and costs
100/200/300/400 and ingesting one advance-epoch checkpoint makes the epoch-0
safe-mode query return `enabled = true` and exactly those four values. -/
theorem C2_safe_mode_v1_values (g : StoredGenesis) (c : Checkpoint)
    (hc : c.is_epoch_end = true) :
    queryEpochSafeMode (processCheckpoint (bootstrap g safe_mode_state_v1) c) 0 =
      some ⟨true, 100, 200, 300, 400⟩ := by
  rw [processCheckpoint_epoch_end hc]
  simp [bootstrap, queryEpochSafeMode, safeModeOf, safe_mode_state_v1,
    sui_system_state_inner_v1, Balance.new]

/-- Witness for C2 at the concrete test scenario. -/
theorem C2_witness :
    queryEpochSafeMode
        (processCheckpoint (bootstrap stored_genesis safe_mode_state_v1)
          advanceEpochCheckpoint) 0 =
      some ⟨true, 100, 200, 300, 400⟩ :=
  C2_safe_mode_v1_values stored_genesis advanceEpochCheckpoint rfl

/-- The V1 mock with an arbitrary safe-mode assignment, as the V1 test builds
it. -/
def overrideSafeModeV1 (en : Bool) (cc sc sr nf : Nat) : SuiSystemState :=
  SuiSystemState.V1
    { sui_system_state_inner_v1 with
      safe_mode := en
      safe_mode_computation_rewards := Balance.new cc
      safe_mode_storage_rewards := Balance.new sc
      safe_mode_storage_rebates := sr
      safe_mode_non_refundable_storage_fee := nf }

/-- The V2 mock with an arbitrary safe-mode assignment, as the V2 test builds
it. -/
def overrideSafeModeV2 (en : Bool) (cc sc sr nf : Nat) : SuiSystemState :=
  SuiSystemState.V2
    { sui_system_state_inner_v2 with
      safe_mode := en
      safe_mode_computation_rewards := Balance.new cc
      safe_mode_storage_rewards := Balance.new sc
      safe_mode_storage_rebates := sr
      safe_mode_non_refundable_storage_fee := nf }

/-- C3: for any fixed safe-mode assignment, the epoch-0 safe-mode query after
bootstrap and one epoch advance is the same whether the bootstrap state is the
V1 or the V2 variant of the tagged union, and both read back exactly the
assigned values. -/
theorem C3_v1_v2_read_equivalent (en : Bool) (cc sc sr nf : Nat)
    (g : StoredGenesis) (c : Checkpoint) (hc : c.is_epoch_end = true) :
    queryEpochSafeMode
        (processCheckpoint (bootstrap g (overrideSafeModeV1 en cc sc sr nf)) c) 0 =
      queryEpochSafeMode
        (processCheckpoint (bootstrap g (overrideSafeModeV2 en cc sc sr nf)) c) 0 ∧
    queryEpochSafeMode
        (processCheckpoint (bootstrap g (overrideSafeModeV1 en cc sc sr nf)) c) 0 =
      some ⟨en, cc, sc, sr, nf⟩ := by
  rw [processCheckpoint_epoch_end hc, processCheckpoint_epoch_end hc]
  simp [bootstrap, queryEpochSafeMode, safeModeOf, overrideSafeModeV1, overrideSafeModeV2,
    sui_system_state_inner_v1, sui_system_state_inner_v2, Balance.new]

/-- Witness for C3 at the test's concrete assignment. -/
theorem C3_witness :
    (queryEpochSafeMode
        (processCheckpoint (bootstrap stored_genesis (overrideSafeModeV1 true 100 200 300 400))
          advanceEpochCheckpoint) 0 =
      queryEpochSafeMode
        (processCheckpoint (bootstrap stored_genesis (overrideSafeModeV2 true 100 200 300 400))
          advanceEpochCheckpoint) 0) ∧
    queryEpochSafeMode
        (processCheckpoint (bootstrap stored_genesis (overrideSafeModeV1 true 100 200 300 400))
          advanceEpochCheckpoint) 0 =
      some ⟨true, 100, 200, 300, 400⟩ :=
  C3_v1_v2_read_equivalent true 100 200 300 400 stored_genesis advanceEpochCheckpoint rfl

/-! ## Claim theorems: live-object-set digest (C1) -/

/-- The advance-epoch checkpoint of the `live_object_set_digest` test: it
carries one ECMH live-object-set commitment with the placeholder digest
`[1; 32]`. -/
def liveObjectSetDigestCheckpoint : Checkpoint :=
  { sequence_number := 0
    epoch := 0
    mutations := []
    epoch_commitments := [List.replicate 32 1]
    is_epoch_end := true }

/-- Counterexample to C1: in the test's exact scenario (V2 bootstrap, one
advance-epoch checkpoint carrying the placeholder commitment `[1; 32]`), the
`liveObjectSetDigest` returned for epoch 0 IS the supplied placeholder digest,
rendered in Base58 — the string the test itself asserts,
`4vJ9JU1bJJE96FWSJKvHsmmFADCg4gpZQff4P3bkLKi`, is exactly
`base58Encode [1; 32]`; the value is not an accumulator-derived digest
independent of the input. -/
theorem C1_counterexample :
    queryLiveObjectSetDigest
        (processCheckpoint
          (bootstrap stored_genesis (SuiSystemState.V2 sui_system_state_inner_v2))
          liveObjectSetDigestCheckpoint) 0 =
      some (base58Encode (List.replicate 32 1)) ∧
    base58Encode (List.replicate 32 1) = "4vJ9JU1bJJE96FWSJKvHsmmFADCg4gpZQff4P3bkLKi" := by
  constructor
  · rfl
  · decide

/-- C1 (amended): the `liveObjectSetDigest` returned by the query layer for
epoch 0 is the Base58 rendering of the commitment digest supplied in the
advance-epoch checkpoint — determined by the supplied commitment, not computed
from the object set. -/
theorem C1_digest_is_supplied_commitment (g : StoredGenesis) (s : SuiSystemState)
    (d : List Nat) (rest : List (List Nat)) (c : Checkpoint)
    (hc : c.is_epoch_end = true) (hd : c.epoch_commitments = d :: rest) :
    queryLiveObjectSetDigest (processCheckpoint (bootstrap g s) c) 0 =
      some (base58Encode d) := by
  rw [processCheckpoint_epoch_end hc]
  simp [bootstrap, queryLiveObjectSetDigest, hd]

/-- Witness for the amended C1 at the test's concrete input. -/
theorem C1_witness :
    queryLiveObjectSetDigest
        (processCheckpoint
          (bootstrap stored_genesis (SuiSystemState.V2 sui_system_state_inner_v2))
          liveObjectSetDigestCheckpoint) 0 =
      some (base58Encode (List.replicate 32 1)) :=
  C1_digest_is_supplied_commitment stored_genesis
    (SuiSystemState.V2 sui_system_state_inner_v2) (List.replicate 32 1) []
    liveObjectSetDigestCheckpoint rfl rfl

/-! ## Claim theorems: accumulator order-independence and determinism -/

theorem updateAcc_perm (acc : Int) {l l' : List ObjectMutation} (h : l.Perm l') :
    updateAcc acc l = updateAcc acc l' := by
  unfold updateAcc
  rw [List.Perm.sum_eq (h.map mutationDelta)]

/-- C6: the accumulator's update over a checkpoint's mutations yields the same
digest for every permutation of the mutation list. -/
theorem C6_update_order_independent (acc : Int) (l l' : List ObjectMutation)
    (h : l.Perm l') :
    updateAcc acc l = updateAcc acc l' :=
  updateAcc_perm acc h

/-- Witness for C6 at a concrete two-mutation swap. -/
theorem C6_witness :
    updateAcc 0 [⟨1, 1, true⟩, ⟨2, 1, false⟩] = updateAcc 0 [⟨2, 1, false⟩, ⟨1, 1, true⟩] :=
  C6_update_order_independent 0 [⟨1, 1, true⟩, ⟨2, 1, false⟩] [⟨2, 1, false⟩, ⟨1, 1, true⟩]
    (List.Perm.swap (⟨2, 1, false⟩ : ObjectMutation) ⟨1, 1, true⟩ [])

/-- C5: the digest of a run of ingestion is a deterministic function of the
checkpoint mutation history — two runs whose histories agree checkpoint by
checkpoint up to intra-checkpoint mutation order produce equal digests. -/
theorem C5_digest_deterministic (init : Int) (h1 h2 : List (List ObjectMutation))
    (hperm : List.Forall₂ List.Perm h1 h2) :
    runDigest init h1 = runDigest init h2 := by
  induction hperm generalizing init with
  | nil => rfl
  | cons hab _ ih =>
    simp only [runDigest, List.foldl_cons] at ih ⊢
    rw [updateAcc_perm init hab]
    exact ih _

/-- Witness for C5 at a concrete two-checkpoint history and a permuted copy. -/
theorem C5_witness :
    runDigest 0 [[⟨1, 1, true⟩, ⟨2, 1, true⟩], [⟨1, 2, false⟩]] =
      runDigest 0 [[⟨2, 1, true⟩, ⟨1, 1, true⟩], [⟨1, 2, false⟩]] :=
  C5_digest_deterministic 0 _ _
    (List.Forall₂.cons (List.Perm.swap (⟨2, 1, true⟩ : ObjectMutation) ⟨1, 1, true⟩ [])
      (List.Forall₂.cons (List.Perm.refl _) List.Forall₂.nil))

/-! ## Claim theorems: `wait_until` (C4) -/

/-- C4: `wait_until` returns `Ok` exactly when every named pipeline's
watermark reaches the target sequence number at some time within the timeout,
and when that condition is never reached within the timeout it returns
`TimeoutError` rather than blocking indefinitely. -/
theorem C4_wait_until_contract (trace : Nat → String → Nat) (pipelines : List String)
    (seq timeout : Nat) :
    (wait_until trace pipelines seq timeout = Except.ok () ↔
      ∃ t, t ≤ timeout ∧ ∀ p ∈ pipelines, seq ≤ trace t p) ∧
    ((∀ t, t ≤ timeout → ∃ p ∈ pipelines, trace t p < seq) →
      wait_until trace pipelines seq timeout = Except.error TimeoutError.timeout) := by
  have key : (List.range (timeout + 1)).any (fun t => allReached (trace t) pipelines seq) = true ↔
      ∃ t, t ≤ timeout ∧ ∀ p ∈ pipelines, seq ≤ trace t p := by
    simp [allReached, List.all_eq_true, Nat.lt_succ_iff]
  unfold wait_until
  by_cases h : (List.range (timeout + 1)).any (fun t => allReached (trace t) pipelines seq) = true
  · rw [if_pos h]
    refine ⟨⟨fun _ => key.mp h, fun _ => rfl⟩, fun hnever => ?_⟩
    obtain ⟨t, ht, hall⟩ := key.mp h
    obtain ⟨p, hp, hlt⟩ := hnever t ht
    have := hall p hp
    omega
  · rw [if_neg h]
    exact ⟨⟨fun hok => absurd hok (by simp), fun hex => absurd (key.mpr hex) h⟩, fun _ => rfl⟩

/-- Witness for C4: a trace that reaches the target returns `Ok`; a trace
whose watermark never reaches it within the timeout returns the timeout
error. -/
theorem C4_witness :
    wait_until (fun t _ => t) ["kv_epoch_starts"] 3 5 = Except.ok () ∧
    wait_until (fun _ _ => 0) ["kv_epoch_starts"] 1 5 = Except.error TimeoutError.timeout :=
  ⟨((C4_wait_until_contract (fun t _ => t) ["kv_epoch_starts"] 3 5).1).mpr
      ⟨3, by decide, by decide⟩,
    (C4_wait_until_contract (fun _ _ => 0) ["kv_epoch_starts"] 1 5).2
      (fun t ht => ⟨"kv_epoch_starts", by decide, by decide⟩)⟩

/-! ## Claim theorems: epoch immutability (C8) -/

/-- Every closed snapshot belongs to an epoch strictly before the currently
open one. -/
def ClosedLt (st : PipelineState) : Prop :=
  ∀ e snap, st.snapshots e = some snap → snap.closed = true → e < st.current_epoch

theorem closedLt_bootstrap (g : StoredGenesis) (s : SuiSystemState) :
    ClosedLt (bootstrap g s) := by
  intro e snap he hcl
  simp only [bootstrap] at he
  by_cases h0 : e = 0
  · rw [if_pos h0] at he
    cases he
    simp at hcl
  · rw [if_neg h0] at he
    cases he

theorem closedLt_step {st : PipelineState} (c : Checkpoint) (h : ClosedLt st) :
    ClosedLt (processCheckpoint st c) := by
  intro e snap he hcl
  cases hc : c.is_epoch_end with
  | false =>
    rw [processCheckpoint_not_epoch_end hc] at he ⊢
    exact h e snap he hcl
  | true =>
    rw [processCheckpoint_epoch_end hc] at he ⊢
    dsimp only at he ⊢
    by_cases h0 : e = st.current_epoch
    · omega
    · rw [if_neg h0] at he
      by_cases h1 : e = st.current_epoch + 1
      · rw [if_pos h1] at he
        cases hmap : st.snapshots st.current_epoch with
        | none => rw [hmap] at he; cases he
        | some s0 =>
          rw [hmap, Option.map_some'] at he
          cases he
          simp at hcl
      · rw [if_neg h1] at he
        have := h e snap he hcl
        omega

theorem closedLt_reachable {st : PipelineState} (h : Reachable st) : ClosedLt st := by
  induction h with
  | boot g s => exact closedLt_bootstrap g s
  | step c _ ih => exact closedLt_step c ih

/-- A single checkpoint leaves every closed snapshot untouched. -/
theorem processCheckpoint_preserves_closed {st : PipelineState} (h : ClosedLt st)
    (c : Checkpoint) {e : Nat} {snap : EpochSnapshot}
    (he : st.snapshots e = some snap) (hcl : snap.closed = true) :
    (processCheckpoint st c).snapshots e = some snap := by
  cases hc : c.is_epoch_end with
  | false => rw [processCheckpoint_not_epoch_end hc]; exact he
  | true =>
    have hlt : e < st.current_epoch := h e snap he hcl
    rw [processCheckpoint_epoch_end hc]
    dsimp only
    rw [if_neg (by omega), if_neg (by omega)]
    exact he

theorem processCheckpoints_preserves_closed {e : Nat} {snap : EpochSnapshot}
    (cs : List Checkpoint) :
    ∀ st : PipelineState, Reachable st → st.snapshots e = some snap →
      snap.closed = true → (processCheckpoints st cs).snapshots e = some snap := by
  induction cs with
  | nil => intro st _ he _; exact he
  | cons c cs ih =>
    intro st hst he hcl
    have hstep := processCheckpoint_preserves_closed (closedLt_reachable hst) c he hcl
    exact ih (processCheckpoint st c) (Reachable.step c hst) hstep hcl

/-- C8: in any reachable pipeline state, a snapshot of a closed epoch is never
mutated by ingesting any further checkpoints — all its fields remain
unchanged. -/
theorem C8_closed_epoch_immutable (st : PipelineState) (hst : Reachable st)
    (e : Nat) (snap : EpochSnapshot) (he : st.snapshots e = some snap)
    (hcl : snap.closed = true) (cs : List Checkpoint) :
    (processCheckpoints st cs).snapshots e = some snap :=
  processCheckpoints_preserves_closed cs st hst he hcl

/-- The state after bootstrapping the V1 mock and closing epoch 0. -/
def closedEpochExampleState : PipelineState :=
  processCheckpoint (bootstrap stored_genesis (SuiSystemState.V1 sui_system_state_inner_v1))
    advanceEpochCheckpoint

/-- Epoch 0's snapshot once closed by `advanceEpochCheckpoint`. -/
def closedEpochZeroSnapshot : EpochSnapshot :=
  { system_state := SuiSystemState.V1 sui_system_state_inner_v1
    commitments := []
    closed := true }

/-- A later epoch-1 checkpoint with mutations, closing epoch 1. -/
def laterCheckpoint : Checkpoint :=
  { sequence_number := 1
    epoch := 1
    mutations := [⟨7, 1, true⟩]
    epoch_commitments := []
    is_epoch_end := true }

/-- Witness for C8: processing an epoch-1 checkpoint leaves the closed
epoch-0 snapshot exactly as it was. -/
theorem C8_witness :
    (processCheckpoints closedEpochExampleState [laterCheckpoint]).snapshots 0 =
      some closedEpochZeroSnapshot :=
  C8_closed_epoch_immutable closedEpochExampleState
    (Reachable.step advanceEpochCheckpoint
      (Reachable.boot stored_genesis (SuiSystemState.V1 sui_system_state_inner_v1)))
    0 closedEpochZeroSnapshot rfl rfl [laterCheckpoint]
